import Mathlib

/-!
Verification development for the platform-cli health-monitoring core:
a shallow embedding of `src/health_monitoring/health_aggregator.py` and
`src/health_monitoring/metrics.py`, with theorems checking the
natural-language specification against it.

Conventions of the embedding:
- Python dicts that map service names to values become association lists
  `List (String × _)` (insertion order preserved, as in Python) or
  functions `String → Option _`.
- Wall-clock timestamps (`time.time()`) become `Int` seconds.
- Latency values become `ℚ` milliseconds.
- Network and process effects are passed in as explicit parameters: the
  outcome of a probe, and whether `subprocess.Popen` succeeds.
- Every Python function whose exceptions are all caught locally becomes a
  total Lean function returning its result value.
-/

namespace HealthMonitoring

/-- `ServiceHealth` (health_aggregator.py): status string, optional latency
in milliseconds, optional error string. -/
structure ServiceHealth where
  status : String
  latency_ms : Option ℚ := none
  error : Option String := none
  deriving Repr, DecidableEq

/-- `PlatformHealth` / the dict returned by `check_all`: aggregate status,
timestamp, and per-service results keyed by service name. -/
structure Report where
  status : String
  timestamp : String
  services : List (String × ServiceHealth)
  deriving Repr, DecidableEq

/-- `MAX_RESTART_ATTEMPTS = 3` (health_aggregator.py line 91). -/
def MAX_RESTART_ATTEMPTS : Nat := 3

/-- `RESTART_WINDOW_SECONDS = 3600` (health_aggregator.py line 92). -/
def RESTART_WINDOW_SECONDS : Int := 3600

/-- The `unhealthy_count` computed inside `check_all` (lines 247-250):
number of entries of the services map whose status is the string
"unhealthy". -/
def unhealthyCount (svcs : List (String × ServiceHealth)) : Nat :=
  svcs.countP (fun s => s.2.status = "unhealthy")

/-- The body of `HealthAggregator.check_all` (lines 217-267), with the
per-service probe results supplied by `probe` (one call per configured
`(name, url)` pair, gathered concurrently in the source) and the UTC
timestamp string supplied by `ts`.  The aggregate-status policy is the
fixed threshold of lines 253-258: 0 unhealthy → healthy, at most 2 →
degraded, otherwise unhealthy. -/
def check_all (cfg : List (String × String))
    (probe : String → String → ServiceHealth) (ts : String) : Report :=
  let services_status := cfg.map (fun p => (p.1, probe p.1 p.2))
  let u := unhealthyCount services_status
  { status := if u = 0 then "healthy" else if u ≤ 2 then "degraded" else "unhealthy"
    timestamp := ts
    services := services_status }

/-- Modelled from the spec (§4.2 step 2, §8): the aggregate-status policy as
the spec states it, a function of the unhealthy count alone — 0 → Healthy,
1-2 → Degraded, 3 or more → Unhealthy.  Used to compare `check_all`
against the spec sentence. -/
def specAggregate (u : Nat) : String :=
  if u = 0 then "healthy" else if u ≤ 2 then "degraded" else "unhealthy"

theorem check_all_status_eq (cfg : List (String × String))
    (probe : String → String → ServiceHealth) (ts : String) :
    (check_all cfg probe ts).status
      = specAggregate (unhealthyCount (check_all cfg probe ts).services) := by
  rfl

/-- C1: the aggregate status returned by `check_all` is determined solely by
the number of services whose status is unhealthy, under the fixed absolute
threshold (0 → healthy, 1-2 → degraded, ≥3 → unhealthy), regardless of the
total number of configured services: the status equals the spec's
fixed-threshold function of the unhealthy count, and any two configurations
with the same unhealthy count — of any sizes — get the same aggregate
status. -/
theorem aggregate_status_fixed_threshold
    (cfg cfg' : List (String × String))
    (probe probe' : String → String → ServiceHealth) (ts ts' : String)
    (h : unhealthyCount (check_all cfg probe ts).services
        = unhealthyCount (check_all cfg' probe' ts').services) :
    (check_all cfg probe ts).status
        = specAggregate (unhealthyCount (check_all cfg probe ts).services)
    ∧ (check_all cfg probe ts).status = (check_all cfg' probe' ts').status := by
  refine ⟨check_all_status_eq cfg probe ts, ?_⟩
  rw [check_all_status_eq cfg probe ts, check_all_status_eq cfg' probe' ts', h]

/-- Witness for C1 at concrete inputs: a 2-service set and a 6-service set,
each with exactly one unhealthy probe, agree on the aggregate status
(both degraded), and each matches the fixed-threshold function. -/
theorem aggregate_status_fixed_threshold_witness :
    (check_all [("a", "u1"), ("b", "u2")]
        (fun n _ => if n = "a" then ⟨"unhealthy", none, some "timeout"⟩
                    else ⟨"healthy", some 1, none⟩) "T").status
      = specAggregate (unhealthyCount
          (check_all [("a", "u1"), ("b", "u2")]
            (fun n _ => if n = "a" then ⟨"unhealthy", none, some "timeout"⟩
                        else ⟨"healthy", some 1, none⟩) "T").services)
    ∧ (check_all [("a", "u1"), ("b", "u2")]
        (fun n _ => if n = "a" then ⟨"unhealthy", none, some "timeout"⟩
                    else ⟨"healthy", some 1, none⟩) "T").status
      = (check_all [("a", "u1"), ("b", "u2"), ("c", "u3"), ("d", "u4"), ("e", "u5"), ("f", "u6")]
          (fun n _ => if n = "f" then ⟨"unhealthy", none, some "timeout"⟩
                      else ⟨"healthy", some 1, none⟩) "T2").status :=
  aggregate_status_fixed_threshold _ _ _ _ _ _ (by decide)

/-- C7: for every configured service set and every combination of probe
outcomes, `check_all` returns a report (the embedding is a total function)
whose services map has exactly one entry per configured service, in
configuration order, each holding that service's own probe result — and the
aggregate status is always one of the three health values, so there is no
fatal error path. -/
theorem check_all_one_entry_per_service
    (cfg : List (String × String))
    (probe : String → String → ServiceHealth) (ts : String) :
    (check_all cfg probe ts).services.map Prod.fst = cfg.map Prod.fst
    ∧ (check_all cfg probe ts).services
        = cfg.map (fun p => (p.1, probe p.1 p.2))
    ∧ ((check_all cfg probe ts).status = "healthy"
        ∨ (check_all cfg probe ts).status = "degraded"
        ∨ (check_all cfg probe ts).status = "unhealthy") := by
  refine ⟨?_, rfl, ?_⟩
  · simp [check_all]
  · simp only [check_all]
    split
    · exact Or.inl rfl
    · split
      · exact Or.inr (Or.inl rfl)
      · exact Or.inr (Or.inr rfl)

/-! ### Service prober (`HealthAggregator._check_service`, lines 319-373) -/

/-- `round(x, 2)` of the source, on rational milliseconds: round to two
decimal places. -/
def round2 (x : ℚ) : ℚ := (round (x * 100) : ℤ) / 100

/-- The outcome of the single HTTP GET issued by `_check_service`: a
response with a status code, or one of the three exception classes the
source catches (`httpx.TimeoutException`, `httpx.ConnectError`, any other
`Exception`). -/
inductive ProbeOutcome where
  | response (code : Nat)
  | timeoutExc
  | connectError (detail : String)
  | otherError (detail : String)
  deriving Repr, DecidableEq

/-- The body of `HealthAggregator._check_service` (lines 319-373), with the
network effect supplied as a `ProbeOutcome` and the elapsed wall time in
milliseconds supplied as `elapsedMs`.  Every branch of the source —
including all three exception handlers — returns a result dict, so the
embedding is a total function. -/
def check_service (outcome : ProbeOutcome) (elapsedMs : ℚ) : ServiceHealth :=
  match outcome with
  | .response code =>
      if code = 200 then
        { status := "healthy", latency_ms := some (round2 elapsedMs), error := none }
      else
        { status := "unhealthy", latency_ms := some (round2 elapsedMs),
          error := some ("HTTP " ++ toString code) }
  | .timeoutExc =>
      { status := "unhealthy", latency_ms := some (round2 elapsedMs),
        error := some "timeout" }
  | .connectError detail =>
      { status := "unhealthy", latency_ms := some (round2 elapsedMs),
        error := some ("connection refused: " ++ detail) }
  | .otherError detail =>
      { status := "unhealthy", latency_ms := some (round2 elapsedMs),
        error := some detail }

/-- C6: the prober is total over its failure modes (the embedding of
`_check_service` is a total function: every outcome, including all caught
exceptions, yields a result value rather than a propagated exception), and
classifies outcomes exactly as the spec states: HTTP 200 → healthy with
latency rounded to 2 decimals; HTTP non-200 → unhealthy with error
"HTTP code"; timeout → unhealthy with error "timeout"; connection failure
→ unhealthy with error "connection refused: detail"; any other transport
failure → unhealthy with the failure detail as the error. -/
theorem probe_classification_total
    (code : Nat) (hcode : code ≠ 200) (d : String) (l : ℚ) :
    check_service (.response 200) l
        = { status := "healthy", latency_ms := some (round2 l), error := none }
    ∧ check_service (.response code) l
        = { status := "unhealthy", latency_ms := some (round2 l),
            error := some ("HTTP " ++ toString code) }
    ∧ check_service .timeoutExc l
        = { status := "unhealthy", latency_ms := some (round2 l),
            error := some "timeout" }
    ∧ check_service (.connectError d) l
        = { status := "unhealthy", latency_ms := some (round2 l),
            error := some ("connection refused: " ++ d) }
    ∧ check_service (.otherError d) l
        = { status := "unhealthy", latency_ms := some (round2 l),
            error := some d } := by
  refine ⟨rfl, ?_, rfl, rfl, rfl⟩
  simp [check_service, hcode]

/-- Witness for C6 at status code 503, detail "boom", elapsed 5 ms. -/
theorem probe_classification_total_witness :
    check_service (.response 200) 5
        = { status := "healthy", latency_ms := some (round2 5), error := none }
    ∧ check_service (.response 503) 5
        = { status := "unhealthy", latency_ms := some (round2 5),
            error := some ("HTTP " ++ toString 503) }
    ∧ check_service .timeoutExc 5
        = { status := "unhealthy", latency_ms := some (round2 5),
            error := some "timeout" }
    ∧ check_service (.connectError "boom") 5
        = { status := "unhealthy", latency_ms := some (round2 5),
            error := some ("connection refused: " ++ "boom") }
    ∧ check_service (.otherError "boom") 5
        = { status := "unhealthy", latency_ms := some (round2 5),
            error := some "boom" } :=
  probe_classification_total 503 (by decide) "boom" 5

/-! ### Metrics adapter (`metrics.py`) -/

/-- The gauge state held by the Prometheus registry, as far as
`update_metrics` writes it: the platform gauge value, and the per-service
health and latency gauges (`none` = the labelled gauge was never set). -/
structure MetricsState where
  platform : ℚ
  health : String → Option ℚ
  latency : String → Option ℚ

/-- `STATUS_VALUES` (metrics.py lines 68-72). -/
def STATUS_VALUES : List (String × ℚ) :=
  [("healthy", 1), ("degraded", 1/2), ("unhealthy", 0)]

/-- Writing one labelled gauge: `GAUGE.labels(service=n).set(v)`. -/
def setGauge (g : String → Option ℚ) (n : String) (v : ℚ) :
    String → Option ℚ :=
  fun m => if m = n then some v else g m

/-- One iteration of the per-service loop of `update_metrics` (metrics.py
lines 94-102): set the service health gauge to 1.0 iff the status is
"healthy" else 0.0, and set the latency gauge only when `latency_ms` is
present. -/
def update_service (s : MetricsState) (p : String × ServiceHealth) :
    MetricsState :=
  let s1 := { s with
    health := setGauge s.health p.1 (if p.2.status = "healthy" then 1 else 0) }
  match p.2.latency_ms with
  | some l => { s1 with latency := setGauge s1.latency p.1 l }
  | none => s1

/-- The body of `update_metrics` (metrics.py lines 75-102): set the platform
gauge from `STATUS_VALUES` (default 0.0 for an unknown status), then run the
per-service loop over the services map. -/
def update_metrics (rep : Report) (s : MetricsState) : MetricsState :=
  rep.services.foldl update_service
    { s with platform := (STATUS_VALUES.lookup rep.status).getD 0 }

/-- Modelled from the spec (§4.5): the platform-wide gauge value as a
function of the aggregate status — Healthy → 1.0, Degraded → 0.5,
Unhealthy → 0.0 (any other string also maps to 0.0, matching the source's
dict-lookup default). -/
def specPlatformGauge (st : String) : ℚ :=
  if st = "healthy" then 1 else if st = "degraded" then 1/2 else 0

theorem update_service_platform (s : MetricsState) (p : String × ServiceHealth) :
    (update_service s p).platform = s.platform := by
  cases hl : p.2.latency_ms <;> simp [update_service, hl]

theorem foldl_update_service_platform (l : List (String × ServiceHealth))
    (s : MetricsState) :
    (l.foldl update_service s).platform = s.platform := by
  induction l generalizing s with
  | nil => rfl
  | cons p t ih => rw [List.foldl_cons, ih, update_service_platform]

theorem update_service_ne (s : MetricsState) (p : String × ServiceHealth)
    (n : String) (h : n ≠ p.1) :
    (update_service s p).health n = s.health n
    ∧ (update_service s p).latency n = s.latency n := by
  cases hl : p.2.latency_ms <;> simp [update_service, hl, setGauge, h]

theorem foldl_update_service_not_mem (l : List (String × ServiceHealth))
    (s : MetricsState) (n : String) (h : n ∉ l.map Prod.fst) :
    (l.foldl update_service s).health n = s.health n
    ∧ (l.foldl update_service s).latency n = s.latency n := by
  induction l generalizing s with
  | nil => exact ⟨rfl, rfl⟩
  | cons p t ih =>
    simp only [List.map_cons, List.mem_cons, not_or] at h
    rw [List.foldl_cons]
    obtain ⟨ih1, ih2⟩ := ih (update_service s p) h.2
    obtain ⟨e1, e2⟩ := update_service_ne s p n h.1
    exact ⟨ih1.trans e1, ih2.trans e2⟩

theorem foldl_update_service_mem (l : List (String × ServiceHealth))
    (s : MetricsState) (n : String) (e : ServiceHealth)
    (hnd : (l.map Prod.fst).Nodup) (hm : (n, e) ∈ l) :
    (l.foldl update_service s).health n
        = some (if e.status = "healthy" then 1 else 0)
    ∧ (l.foldl update_service s).latency n
        = (if e.latency_ms.isSome then e.latency_ms else s.latency n) := by
  induction l generalizing s with
  | nil => cases hm
  | cons p t ih =>
    simp only [List.map_cons, List.nodup_cons] at hnd
    rw [List.foldl_cons]
    rcases List.mem_cons.mp hm with heq | hmt
    · subst heq
      have hnt : n ∉ t.map Prod.fst := hnd.1
      obtain ⟨f1, f2⟩ :=
        foldl_update_service_not_mem t (update_service s (n, e)) n hnt
      rw [f1, f2]
      cases hl : e.latency_ms with
      | none => simp [update_service, hl, setGauge]
      | some v => simp [update_service, hl, setGauge]
    · have hn : n ≠ p.1 := by
        intro hc
        exact hnd.1 (hc ▸ (List.mem_map.mpr ⟨(n, e), hmt, rfl⟩))
      obtain ⟨ih1, ih2⟩ := ih (update_service s p) hnd.2 hmt
      refine ⟨ih1, ih2.trans ?_⟩
      rcases hl : e.latency_ms with _ | v
      · simp [hl, (update_service_ne s p n hn).2]
      · simp [hl]

theorem foldl_update_service_latency_some (l : List (String × ServiceHealth))
    (s : MetricsState) (n : String) (hm : n ∈ l.map Prod.fst)
    (hall : ∀ p ∈ l, p.2.latency_ms.isSome = true) :
    ((l.foldl update_service s).latency n).isSome = true := by
  induction l generalizing s with
  | nil => cases hm
  | cons p t ih =>
    rw [List.foldl_cons]
    by_cases ht : n ∈ t.map Prod.fst
    · exact ih (update_service s p) ht (fun q hq => hall q (List.mem_cons_of_mem p hq))
    · have hn : n = p.1 := by
        rw [List.map_cons, List.mem_cons] at hm
        exact hm.resolve_right ht
      rw [(foldl_update_service_not_mem t (update_service s p) n ht).2]
      have hp := hall p (List.mem_cons_self p t)
      rcases hl : p.2.latency_ms with _ | v
      · rw [hl] at hp; cases hp
      · simp [update_service, hl, setGauge, hn]

/-- Every branch of `_check_service` returns a result carrying
`latency_ms = round(elapsed, 2)` — the unhealthy branches included. -/
theorem check_service_latency (o : ProbeOutcome) (l : ℚ) :
    (check_service o l).latency_ms = some (round2 l) := by
  cases o with
  | response code =>
    by_cases h : code = 200 <;> simp [check_service, h]
  | timeoutExc => rfl
  | connectError d => rfl
  | otherError d => rfl

/-- The services map built by `check_all` has exactly the configured names,
in order. -/
theorem check_all_services_fst (cfg : List (String × String))
    (probe : String → String → ServiceHealth) (ts : String) :
    (check_all cfg probe ts).services.map Prod.fst = cfg.map Prod.fst := by
  simp [check_all]

/-- The concrete report of the spec's round-trip example (§8): status
degraded, service a unhealthy with error "timeout", service b healthy with
latency 12.3 ms. -/
def c8Report : Report :=
  { status := "degraded", timestamp := "T",
    services := [("a", ⟨"unhealthy", none, some "timeout"⟩),
                 ("b", ⟨"healthy", some (123/10), none⟩)] }

/-- A fresh gauge state: platform 0, no labelled gauge ever written. -/
def initMetrics : MetricsState :=
  { platform := 0, health := fun _ => none, latency := fun _ => none }

/-- C8: the spec's round-trip example — feeding the degraded report with
a unhealthy (error timeout) and b healthy (latency 12.3) into
`update_metrics` sets platform = 0.5, a = 0.0, b = 1.0, b latency = 12.3 —
and in general, for a services map with distinct names, the per-service
health gauge is 1.0 exactly when the status is "healthy" and 0.0 otherwise,
a latency gauge is written only for entries carrying a latency value, and
the platform gauge maps healthy → 1.0, degraded → 0.5, unhealthy → 0.0. -/
theorem update_metrics_gauges (rep : Report) (s0 : MetricsState)
    (n : String) (e : ServiceHealth)
    (hnd : (rep.services.map Prod.fst).Nodup) (hm : (n, e) ∈ rep.services) :
    (update_metrics c8Report initMetrics).platform = 1/2
    ∧ (update_metrics c8Report initMetrics).health "a" = some 0
    ∧ (update_metrics c8Report initMetrics).health "b" = some 1
    ∧ (update_metrics c8Report initMetrics).latency "b" = some (123/10)
    ∧ (update_metrics rep s0).health n
        = some (if e.status = "healthy" then 1 else 0)
    ∧ (update_metrics rep s0).latency n
        = (if e.latency_ms.isSome then e.latency_ms else s0.latency n)
    ∧ (update_metrics rep s0).platform = specPlatformGauge rep.status := by
  have hplat : ∀ (r : Report) (s : MetricsState),
      (update_metrics r s).platform = (STATUS_VALUES.lookup r.status).getD 0 := by
    intro r s
    show (List.foldl update_service _ _).platform = _
    rw [foldl_update_service_platform]
  obtain ⟨g1, g2⟩ := foldl_update_service_mem rep.services
    { s0 with platform := (STATUS_VALUES.lookup rep.status).getD 0 } n e hnd hm
  have hmem : ∀ (m : String) (f : ServiceHealth), (m, f) ∈ c8Report.services →
      (update_metrics c8Report initMetrics).health m
          = some (if f.status = "healthy" then 1 else 0)
      ∧ (update_metrics c8Report initMetrics).latency m
          = (if f.latency_ms.isSome then f.latency_ms
             else initMetrics.latency m) := by
    intro m f hmf
    exact foldl_update_service_mem c8Report.services
      { initMetrics with platform := (STATUS_VALUES.lookup c8Report.status).getD 0 }
      m f (by decide) hmf
  refine ⟨?_, ?_, ?_, ?_, g1, g2, ?_⟩
  · rw [hplat]; simp [c8Report, STATUS_VALUES, List.lookup]
  · have h := (hmem "a" ⟨"unhealthy", none, some "timeout"⟩ (by simp [c8Report])).1
    simpa using h
  · have h := (hmem "b" ⟨"healthy", some (123/10), none⟩ (by simp [c8Report])).1
    simpa using h
  · have h := (hmem "b" ⟨"healthy", some (123/10), none⟩ (by simp [c8Report])).2
    simpa using h
  · rw [hplat]
    by_cases h1 : rep.status = "healthy"
    · simp [STATUS_VALUES, specPlatformGauge, List.lookup, h1]
    by_cases h2 : rep.status = "degraded"
    · simp [STATUS_VALUES, specPlatformGauge, List.lookup, h1, h2]
    by_cases h3 : rep.status = "unhealthy"
    · simp [STATUS_VALUES, specPlatformGauge, List.lookup, h1, h2, h3]
    · have b1 : (rep.status == "healthy") = false := beq_eq_false_iff_ne.mpr h1
      have b2 : (rep.status == "degraded") = false := beq_eq_false_iff_ne.mpr h2
      have b3 : (rep.status == "unhealthy") = false := beq_eq_false_iff_ne.mpr h3
      simp [STATUS_VALUES, specPlatformGauge, List.lookup, h1, h2, h3, b1, b2, b3]

/-- Witness for C8, instantiated at the round-trip report itself and its
entry for service a. -/
theorem update_metrics_gauges_witness :
    (update_metrics c8Report initMetrics).platform = 1/2
    ∧ (update_metrics c8Report initMetrics).health "a" = some 0
    ∧ (update_metrics c8Report initMetrics).health "b" = some 1
    ∧ (update_metrics c8Report initMetrics).latency "b" = some (123/10)
    ∧ (update_metrics c8Report initMetrics).health "a"
        = some (if ("unhealthy" : String) = "healthy" then 1 else 0)
    ∧ (update_metrics c8Report initMetrics).latency "a"
        = (if (none : Option ℚ).isSome then (none : Option ℚ)
           else initMetrics.latency "a")
    ∧ (update_metrics c8Report initMetrics).platform
        = specPlatformGauge c8Report.status :=
  update_metrics_gauges c8Report initMetrics "a"
    ⟨"unhealthy", none, some "timeout"⟩ (by decide) (by simp [c8Report])

/-- C10: every probe result of `_check_service` — the unhealthy outcomes
for timeout, connection failure, non-200 and other transport errors
included — carries a latency value rounded to 2 decimals; consequently
`update_metrics` writes the per-service latency gauge for every probed
service on every cycle, healthy or not. -/
theorem probe_latency_always_present
    (o : ProbeOutcome) (l : ℚ) (cfg : List (String × String))
    (oc : String → String → ProbeOutcome) (lat : String → String → ℚ)
    (ts : String) (s : MetricsState) (n : String)
    (hn : n ∈ cfg.map Prod.fst) :
    (check_service o l).latency_ms = some (round2 l)
    ∧ ((update_metrics
          (check_all cfg (fun a b => check_service (oc a b) (lat a b)) ts)
          s).latency n).isSome = true := by
  refine ⟨check_service_latency o l, ?_⟩
  show ((List.foldl update_service _ _).latency n).isSome = true
  apply foldl_update_service_latency_some
  · rw [check_all_services_fst]; exact hn
  · intro p hp
    simp only [check_all] at hp
    obtain ⟨q, _, rfl⟩ := List.mem_map.mp hp
    rw [check_service_latency]
    rfl

/-- Witness for C10: a single configured service probed with a timeout
outcome at 7 ms elapsed still gets its latency gauge written. -/
theorem probe_latency_always_present_witness :
    (check_service .timeoutExc 7).latency_ms = some (round2 7)
    ∧ ((update_metrics
          (check_all [("a", "u")]
            (fun a b => check_service ((fun _ _ => ProbeOutcome.timeoutExc) a b)
              ((fun _ _ => (7 : ℚ)) a b)) "T")
          initMetrics).latency "a").isSome = true :=
  probe_latency_always_present .timeoutExc 7 [("a", "u")]
    (fun _ _ => .timeoutExc) (fun _ _ => 7) "T" initMetrics "a" (by decide)

/-! ### Restart rate limiter and remediation executor
(`attempt_restart`, health_aggregator.py lines 106-175) -/

/-- `SERVICE_NAME_MAP` (health_aggregator.py lines 80-87). -/
def SERVICE_NAME_MAP : List (String × String) :=
  [("ai-agents", "ai-agents"), ("inference-service", "inference"),
   ("llm-gateway", "llm-gateway"), ("semantic-search", "semantic-search"),
   ("audit-service", "audit-service"), ("code-orchestrator", "code-orchestrator")]

/-- `SERVICE_NAME_MAP.get(service_name, service_name)` (line 113). -/
def mapServiceName (n : String) : String :=
  (SERVICE_NAME_MAP.lookup n).getD n

/-- One service's entry in `topology.yaml`, as far as `attempt_restart`
reads it: the `start` commands keyed by launch mode, the working-directory
path and the environment overrides.  A missing or empty entry in the
topology file is represented as `none` at the lookup site. -/
structure TopologyEntry where
  start_native : Option String := none
  start_docker : Option String := none
  path : String := ""
  env : List (String × String) := []
  deriving Repr, DecidableEq

/-- The rate-limit check and recording step of `attempt_restart` (lines
115-129): prune timestamps outside the trailing window (`now - t <
RESTART_WINDOW_SECONDS` keeps), deny without recording when 3 or more
remain, otherwise append `now` and allow. -/
def rate_limit_allow (now : Int) (attempts : List Int) : Bool × List Int :=
  let pruned := attempts.filter (fun t => decide (now - t < RESTART_WINDOW_SECONDS))
  if pruned.length ≥ MAX_RESTART_ATTEMPTS then (false, pruned)
  else (true, pruned ++ [now])

/-- Python's `a or b` on optional strings: an empty string is falsy and
falls through to `b`, as in `start_cmds.get("native") or
start_cmds.get("docker")` (line 142). -/
def pyOr (a b : Option String) : Option String :=
  match a with
  | some s => if s = "" then b else some s
  | none => b

/-- `os.path.join` as used on `base_path` and the service path (line 150):
an absolute second component replaces the first. -/
def pathJoin (a b : String) : String :=
  if b.startsWith "/" then b else a ++ "/" ++ b

/-- `base_path = "/Users/kevintoles/POC"` (line 149). -/
def BASE_PATH : String := "/Users/kevintoles/POC"

/-- The environment assembly of lines 156-160: inherit the process
environment, overlay the service's declared overrides, skipping any value
that still holds an unresolved `$`-brace template marker. -/
def buildEnv (base overrides : List (String × String)) :
    List (String × String) :=
  base ++ overrides.filter (fun p => !(p.2.startsWith "$\x7b"))

/-- The observable outcome of one `attempt_restart` call: the returned
boolean, the service's recorded attempt-timestamp list afterwards
(`RESTART_ATTEMPTS[service_name]`), and the detached process launched, if
any (`none` when `subprocess.Popen` was never reached or raised). -/
structure RestartResult where
  ok : Bool
  attempts : List Int
  launched : Option (String × List (String × String))
  deriving Repr, DecidableEq

/-- The body of `attempt_restart` (lines 106-175), with the wall clock,
the service's current timestamp list, the freshly loaded topology and the
process environment passed explicitly, and the success of
`subprocess.Popen` supplied by `popenOk` (the source catches a raising
`Popen` and returns `False`).  Note the ordering of the source: the
attempt timestamp is appended (line 129) before the topology is consulted
(line 132). -/
def attempt_restart (service_name : String) (now : Int)
    (attempts : List Int) (topology : String → Option TopologyEntry)
    (procEnv : List (String × String)) (popenOk : Bool) : RestartResult :=
  let topo_name := mapServiceName service_name
  let r := rate_limit_allow now attempts
  if !r.1 then { ok := false, attempts := r.2, launched := none }
  else
    match topology topo_name with
    | none => { ok := false, attempts := r.2, launched := none }
    | some cfg =>
      match pyOr cfg.start_native cfg.start_docker with
      | none => { ok := false, attempts := r.2, launched := none }
      | some c =>
        if c = "" then { ok := false, attempts := r.2, launched := none }
        else
          let work_dir := pathJoin BASE_PATH cfg.path
          let cmd := "cd " ++ work_dir ++ " && " ++ c
          if popenOk then
            { ok := true, attempts := r.2,
              launched := some (cmd, buildEnv procEnv cfg.env) }
          else { ok := false, attempts := r.2, launched := none }

theorem rate_limit_allow_snd (now : Int) (att : List Int) :
    (rate_limit_allow now att).2
      = (if (rate_limit_allow now att).1
         then att.filter (fun t => decide (now - t < RESTART_WINDOW_SECONDS)) ++ [now]
         else att.filter (fun t => decide (now - t < RESTART_WINDOW_SECONDS))) := by
  simp only [rate_limit_allow]
  split <;> simp

/-- Every branch of `attempt_restart` leaves the recorded attempt list
exactly as the rate-limit step produced it. -/
theorem attempt_restart_attempts (service_name : String) (now : Int)
    (attempts : List Int) (topology : String → Option TopologyEntry)
    (procEnv : List (String × String)) (popenOk : Bool) :
    (attempt_restart service_name now attempts topology procEnv popenOk).attempts
      = (rate_limit_allow now attempts).2 := by
  simp only [attempt_restart]
  split
  · rfl
  · split
    · rfl
    · split
      · rfl
      · split
        · rfl
        · split <;> rfl

/-- C2 counterexample: with an empty attempt window and a topology that has
no entry for the service, `attempt_restart` at time 0 returns false (no
configuration) and yet records the attempt timestamp — the recorded window
grows from `[]` to `[0]`.  This refutes the claim that every
false-returning call leaves the window with no new timestamp. -/
theorem restart_false_still_records_timestamp :
    attempt_restart "svc" 0 [] (fun _ => none) [] true
      = { ok := false, attempts := [0], launched := none }
    ∧ ([] : List Int) ≠ [0] := by
  exact ⟨by decide, by decide⟩

/-- C2 as amended: the attempt timestamp is recorded exactly when the
rate limiter allows the attempt to proceed — a rate-limited call leaves
the pruned window unchanged, while a call that passes the rate limiter
appends `now` even when it subsequently fails (missing topology entry,
missing start command, or launch failure) and returns false. -/
theorem restart_timestamp_iff_rate_limit_allows (service_name : String)
    (now : Int) (attempts : List Int)
    (topology : String → Option TopologyEntry)
    (procEnv : List (String × String)) (popenOk : Bool) :
    (attempt_restart service_name now attempts topology procEnv popenOk).attempts
      = (if (rate_limit_allow now attempts).1
         then attempts.filter (fun t => decide (now - t < RESTART_WINDOW_SECONDS)) ++ [now]
         else attempts.filter (fun t => decide (now - t < RESTART_WINDOW_SECONDS))) := by
  rw [attempt_restart_attempts, rate_limit_allow_snd]

/-- C5: the rate limiter is a sliding window.  In general the call is
allowed exactly when fewer than 3 timestamps survive the 3600-second
pruning; concretely, for three recorded attempts `t0 ≤ t1 ≤ t2`: a 4th
call while all three are within the window is denied and records nothing;
once the oldest has aged past 3600 seconds (the others still inside), one
more attempt is allowed and recorded, and an immediately following call at
the same instant is denied again — slots free one at a time, not all at
once. -/
theorem rate_limiter_sliding_window (now1 now2 t0 t1 t2 : Int)
    (att : List Int) (h01 : t0 ≤ t1) (h12 : t1 ≤ t2)
    (hw : now1 - t0 < 3600) (hex : 3600 ≤ now2 - t0)
    (hin : now2 - t1 < 3600) :
    ((rate_limit_allow now1 att).1 = true
        ↔ (att.filter (fun t => decide (now1 - t < RESTART_WINDOW_SECONDS))).length
            < MAX_RESTART_ATTEMPTS)
    ∧ (rate_limit_allow now1 [t0, t1, t2]).1 = false
    ∧ (rate_limit_allow now1 [t0, t1, t2]).2 = [t0, t1, t2]
    ∧ (rate_limit_allow now2 [t0, t1, t2]).1 = true
    ∧ (rate_limit_allow now2 [t0, t1, t2]).2 = [t1, t2, now2]
    ∧ (rate_limit_allow now2 [t1, t2, now2]).1 = false := by
  have k0 : now1 - t0 < RESTART_WINDOW_SECONDS := hw
  have k1 : now1 - t1 < RESTART_WINDOW_SECONDS := by
    simp only [RESTART_WINDOW_SECONDS] at hw ⊢; omega
  have k2 : now1 - t2 < RESTART_WINDOW_SECONDS := by
    simp only [RESTART_WINDOW_SECONDS] at hw ⊢; omega
  have m0 : ¬ (now2 - t0 < RESTART_WINDOW_SECONDS) := by
    simp only [RESTART_WINDOW_SECONDS]; omega
  have m1 : now2 - t1 < RESTART_WINDOW_SECONDS := hin
  have m2 : now2 - t2 < RESTART_WINDOW_SECONDS := by
    simp only [RESTART_WINDOW_SECONDS] at hin ⊢; omega
  have mn : now2 - now2 < RESTART_WINDOW_SECONDS := by
    simp only [RESTART_WINDOW_SECONDS]; omega
  refine ⟨?_, ?_, ?_, ?_, ?_, ?_⟩
  · simp only [rate_limit_allow]
    split
    · next h => simp; omega
    · next h => simp; omega
  · simp [rate_limit_allow, List.filter, k0, k1, k2, MAX_RESTART_ATTEMPTS]
  · simp [rate_limit_allow, List.filter, k0, k1, k2, MAX_RESTART_ATTEMPTS]
  · simp [rate_limit_allow, List.filter, m0, m1, m2, MAX_RESTART_ATTEMPTS]
  · simp [rate_limit_allow, List.filter, m0, m1, m2, MAX_RESTART_ATTEMPTS]
  · simp [rate_limit_allow, List.filter, m1, m2, mn, MAX_RESTART_ATTEMPTS,
      show (0 : Int) < RESTART_WINDOW_SECONDS by decide]

/-- Witness for C5: attempts at 0, 100 and 200 seconds; a 4th call at
3599 s is denied, a call at 3600 s (the oldest attempt just expired) is
allowed, and a further call at 3600 s is denied again. -/
theorem rate_limiter_sliding_window_witness :
    ((rate_limit_allow 3599 [50]).1 = true
        ↔ (([50] : List Int).filter
            (fun t => decide ((3599 : Int) - t < RESTART_WINDOW_SECONDS))).length
            < MAX_RESTART_ATTEMPTS)
    ∧ (rate_limit_allow 3599 [0, 100, 200]).1 = false
    ∧ (rate_limit_allow 3599 [0, 100, 200]).2 = [0, 100, 200]
    ∧ (rate_limit_allow 3600 [0, 100, 200]).1 = true
    ∧ (rate_limit_allow 3600 [0, 100, 200]).2 = [100, 200, 3600]
    ∧ (rate_limit_allow 3600 [100, 200, 3600]).1 = false :=
  rate_limiter_sliding_window 3599 3600 0 100 200 [50]
    (by decide) (by decide) (by decide) (by decide) (by decide)

/-- C9: when the mapped topology identifier has no entry in the loaded
topology, `attempt_restart` returns false and launches no process; and in
general every failing path — rate-limit denial, missing entry, missing
start command, or a raising spawn call — is reported as a false return
value with no launched process (the embedding is a total function: no
exception escapes to the caller). -/
theorem restart_missing_topology_no_launch
    (name name2 : String) (now now2 : Int) (att att2 : List Int)
    (topo topo2 : String → Option TopologyEntry)
    (envp envp2 : List (String × String)) (pok : Bool)
    (hmiss : topo (mapServiceName name) = none) :
    (attempt_restart name now att topo envp pok).ok = false
    ∧ (attempt_restart name now att topo envp pok).launched = none
    ∧ (attempt_restart name2 now2 att2 topo2 envp2 false).ok = false
    ∧ (attempt_restart name2 now2 att2 topo2 envp2 false).launched = none := by
  refine ⟨?_, ?_, ?_, ?_⟩ <;>
    · simp only [attempt_restart, hmiss]
      repeat' split <;> try rfl

/-- Witness for C9: restarting "inference-service" (whose topology name is
"inference") against an empty topology, and a spawn failure for a fully
configured service. -/
theorem restart_missing_topology_no_launch_witness :
    (attempt_restart "inference-service" 5 [] (fun _ => none) [] true).ok = false
    ∧ (attempt_restart "inference-service" 5 [] (fun _ => none) [] true).launched = none
    ∧ (attempt_restart "llm-gateway" 7 []
        (fun _ => some { start_native := some "make run", path := "gw" }) [] false).ok
        = false
    ∧ (attempt_restart "llm-gateway" 7 []
        (fun _ => some { start_native := some "make run", path := "gw" }) [] false).launched
        = none :=
  restart_missing_topology_no_launch "inference-service" "llm-gateway" 5 7 [] []
    (fun _ => none) (fun _ => some { start_native := some "make run", path := "gw" })
    [] [] true (by decide)

/-! ### Transition detection
(`HealthAggregator._log_status_changes`, lines 269-317) -/

/-- The signals `_log_status_changes` can emit: the three per-service
log lines (service down, service recovered, service still down) and the
three platform-level ones. -/
inductive Signal where
  | down (error : String)
  | recovered
  | stillDown (error : String)
  | platformUnhealthy
  | platformDegraded
  | platformHealthy
  deriving Repr, DecidableEq

/-- One iteration of the per-service loop of `_log_status_changes` (lines
282-306) for a single service: given the tracked previous status and the
current status and error, the signals emitted and whether
`attempt_restart` was invoked (it is invoked exactly in the
transition-into-unhealthy branch, line 293).  The tracked status is then
set to the current one (line 306), so the next cycle's previous status is
this cycle's current status. -/
def service_step (prev : Option String) (cur err : String) :
    List Signal × Bool :=
  match prev with
  | some p =>
    if cur ≠ p then
      if cur = "unhealthy" then ([Signal.down err], true)
      else ([Signal.recovered], false)
    else if cur = "unhealthy" ∧ p = "unhealthy" then
      ([Signal.stillDown err], false)
    else ([], false)
  | none => ([], false)

/-- The platform-level signal chosen on a platform status change (lines
310-315). -/
def platform_sig (cur : String) : Signal :=
  if cur = "unhealthy" then Signal.platformUnhealthy
  else if cur = "degraded" then Signal.platformDegraded
  else Signal.platformHealthy

/-- The platform-level part of `_log_status_changes` (lines 309-317) for
one cycle: a signal exactly when a previous platform status exists and
differs from the current one; the tracked status is then set to the
current one unconditionally (line 317). -/
def platform_step (prev : Option String) (cur : String) : List Signal :=
  match prev with
  | some p => if cur ≠ p then [platform_sig cur] else []
  | none => []

/-- A sequence of aggregation cycles for one service: starting from the
tracked previous status `prev`, run `service_step` on each cycle's
(status, error) pair, threading the tracked status (each cycle's current
status becomes the next cycle's previous one). -/
def service_trace (prev : Option String) :
    List (String × String) → List (List Signal × Bool)
  | [] => []
  | (c, e) :: rest => service_step prev c e :: service_trace (some c) rest

/-- A sequence of aggregation cycles at platform level. -/
def platform_trace (prev : Option String) : List String → List (List Signal)
  | [] => []
  | c :: rest => platform_step prev c :: platform_trace (some c) rest

/-- Which signals are transition signals (down or recovered), as opposed
to the repeated still-down reminder. -/
def isTransitionSig : Signal → Bool
  | Signal.down _ => true
  | Signal.recovered => true
  | _ => false

/-- Modelled from the spec (§4.2 step 3, §8): the expected number of
transition signals on each cycle of a status sequence — 0 on the first
observation (no previous status), and afterwards 1 exactly on the cycles
where the status differs from the previous cycle's. -/
def specTransitionCounts (prev : Option String) : List String → List Nat
  | [] => []
  | c :: rest =>
      (match prev with
       | none => 0
       | some p => if c ≠ p then 1 else 0) :: specTransitionCounts (some c) rest

theorem service_step_transition_count (prev : Option String) (c e : String) :
    (service_step prev c e).1.countP isTransitionSig
      = (match prev with
         | none => 0
         | some p => if c ≠ p then 1 else 0) := by
  cases prev with
  | none => rfl
  | some p =>
    by_cases hc : c = p
    · subst hc
      by_cases hu : c = "unhealthy" <;>
        simp [service_step, hu, isTransitionSig, List.countP_cons, List.countP_nil]
    · simp only [service_step]
      rw [if_pos hc]
      by_cases hu : c = "unhealthy"
      · rw [if_pos hu]
        simp [isTransitionSig, hc, List.countP_cons, List.countP_nil]
      · rw [if_neg hu]
        simp [isTransitionSig, hc, List.countP_cons, List.countP_nil]

theorem service_trace_counts (prev : Option String)
    (xs : List (String × String)) :
    (service_trace prev xs).map (fun r => r.1.countP isTransitionSig)
      = specTransitionCounts prev (xs.map Prod.fst) := by
  induction xs generalizing prev with
  | nil => rfl
  | cons q rest ih =>
    obtain ⟨c, e⟩ := q
    simp only [service_trace, List.map_cons, specTransitionCounts]
    rw [service_step_transition_count, ih]

theorem platform_step_length (prev : Option String) (c : String) :
    (platform_step prev c).length
      = (match prev with
         | none => 0
         | some p => if c ≠ p then 1 else 0) := by
  cases prev with
  | none => rfl
  | some p => by_cases hc : c = p <;> simp [platform_step, hc]

theorem platform_trace_counts (prev : Option String) (ys : List String) :
    (platform_trace prev ys).map List.length
      = specTransitionCounts prev ys := by
  induction ys generalizing prev with
  | nil => rfl
  | cons c rest ih =>
    simp only [platform_trace, List.map_cons, specTransitionCounts]
    rw [platform_step_length, ih]

/-- C3: for every service and every sequence of cycles, the number of
transition signals (down or recovered) emitted on each cycle matches the
spec exactly — 0 on the first-ever cycle (where also no signal of any kind
and no remediation call happens), and afterwards 1 precisely on the cycles
whose status differs from the previous cycle's recorded status; likewise
for the platform-level status. -/
theorem transition_signals_once_per_change (p : String × String)
    (xs : List (String × String)) (y : String) (ys : List String) :
    (service_trace none (p :: xs)).head? = some ([], false)
    ∧ (service_trace none (p :: xs)).map (fun r => r.1.countP isTransitionSig)
        = specTransitionCounts none ((p :: xs).map Prod.fst)
    ∧ (platform_trace none (y :: ys)).head? = some []
    ∧ (platform_trace none (y :: ys)).map List.length
        = specTransitionCounts none (y :: ys) := by
  refine ⟨?_, service_trace_counts none (p :: xs), rfl,
    platform_trace_counts none (y :: ys)⟩
  obtain ⟨c, e⟩ := p
  rfl

/-- C4: the sustained-outage scenario — a service healthy on cycle 1 and
unhealthy from cycle 2 onward emits no signal on cycle 1, the down
transition (with `attempt_restart` invoked) exactly on cycle 2, and the
still-down reminder, with no remediation, on cycle 3 and every later cycle
while the status stays unhealthy. -/
theorem sustained_outage_scenario (n : Nat) (e0 e : String) :
    service_trace none
        (("healthy", e0) :: ("unhealthy", e)
          :: List.replicate n ("unhealthy", e))
      = ([], false) :: ([Signal.down e], true)
          :: List.replicate n ([Signal.stillDown e], false) := by
  have hrep : ∀ m, service_trace (some "unhealthy")
      (List.replicate m ("unhealthy", e))
      = List.replicate m ([Signal.stillDown e], false) := by
    intro m
    induction m with
    | zero => rfl
    | succ k ih =>
      rw [List.replicate_succ, service_trace, ih, List.replicate_succ]
      have h3 : service_step (some "unhealthy") "unhealthy" e
          = ([Signal.stillDown e], false) := by
        simp [service_step]
      rw [h3]
  have h2 : service_step (some "healthy") "unhealthy" e
      = ([Signal.down e], true) := by
    simp [service_step]
  simp only [service_trace, hrep, h2]
  rfl

end HealthMonitoring
